import Mathlib

/-!
Verification of the job orchestration and notification pipeline of the
IEEE PDF agent (source files `pdf_agent.py` and `app.py`).

The Python source is shallowly embedded: pure computations become Lean
functions, external effects (subprocess exit codes, the SMTP session,
filesystem existence and creation times, the clock) become explicit
oracle parameters, and the mutation of a `FileRecord` by the web layer
and the background job becomes explicit state passing.
-/

namespace PdfAgent

/-- Whether the first character list is an initial segment of the second. -/
def listStarts : List Char → List Char → Bool
  | [], _ => true
  | _ :: _, [] => false
  | a :: as, b :: bs => a == b && listStarts as bs

/-- Python's `str.startswith`: `strStarts s p` is true when `s` begins with
`p` (character-list recursion so that proofs can evaluate it). -/
def strStarts (s p : String) : Bool := listStarts p.data s.data

/-- Helper for `splitSlash`: the accumulator holds the current component
reversed. -/
def splitSlashAux : List Char → List Char → List String
  | [], acc => [String.mk acc.reverse]
  | c :: cs, acc =>
    if c == '/' then String.mk acc.reverse :: splitSlashAux cs []
    else splitSlashAux cs (c :: acc)

/-- Split a path string on the `/` separator. -/
def splitSlash (p : String) : List String := splitSlashAux p.data []

/-- The status strings a FileRecord's `status` field takes in the source
(`'uploaded'`, `'processing'`, `'completed'`, `'failed'`). -/
inductive Status where
  | uploaded
  | processing
  | completed
  | failed
deriving DecidableEq, Repr

/-- A file record as appended by `upload_file` (app.py lines 120-126) and
mutated by `convert_file` / `process_conversion`.  Optional fields model
dictionary keys that are absent until first assigned. -/
structure FileRecord where
  filename : String
  original_name : String
  filepath : String
  status : Status
  pdf_path : Option String
  error : Option String
  uploaded_at : String
  completed_at : Option String
deriving DecidableEq, Repr

/-- The record as appended at upload time (app.py lines 120-126): status
`uploaded`, no pdf_path, no error, no completed_at. -/
def mkUploaded (filename original_name filepath uploaded_at : String) : FileRecord :=
  ⟨filename, original_name, filepath, Status.uploaded, none, none, uploaded_at, none⟩

/-- A `conversion_status` event as emitted through the socket
(app.py lines 190-195, 217-223, 228-233, 240-245). -/
structure StatusEvent where
  session_id : String
  filename : String
  status : Status
  message : String
  pdf_path : Option String
deriving DecidableEq, Repr

/-- The `email` section of the configuration (pdf_agent.py lines 47-54). -/
structure EmailConfig where
  smtp_server : String
  smtp_port : Nat
  username : String
  password : String
  from_email : String
  to_email : String
deriving DecidableEq, Repr

/-- `PDFAgent.send_email` (pdf_agent.py lines 88-118).  The whole body is
wrapped in try/except returning False, so the SMTP session is modelled by
a boolean oracle `smtpOk`: if the configuration is incomplete the function
logs and returns False without attempting SMTP; otherwise it returns the
session's outcome. -/
def send_email (cfg : EmailConfig) (smtpOk : Bool) : Bool :=
  if cfg.username = "" || cfg.password = "" || cfg.to_email = "" then false
  else smtpOk

/-- The fixed IEEE-specific pandoc options (pdf_agent.py lines 156-165). -/
def ieeeOptions : List String :=
  ["--standalone", "--number-sections", "--columns", "72",
   "-V", "geometry:margin=1in", "-V", "fontsize=10pt",
   "-V", "documentclass=IEEEtran", "-V", "classoption=10pt,conference",
   "--top-level-division=section"]

/-- The `pandoc.options` list of the default configuration
(pdf_agent.py lines 64-68), appended after the IEEE options (line 169-170). -/
def defaultPandocOptions : List String :=
  ["--standalone", "--toc", "--number-sections"]

/-- Template resolution (pdf_agent.py lines 138-153): if the config names a
template, use it when it exists on disk, else look for it under the current
working directory; if the config names none, use `ieee_template_proper.tex`
when that exists.  `fileExists` is the filesystem oracle. -/
def resolveTemplate (cfgTemplate : Option String) (fileExists : String → Bool)
    (cwd : String) : Option String :=
  match cfgTemplate with
  | some t =>
    if fileExists t then some t
    else if fileExists (cwd ++ "/" ++ t) then some (cwd ++ "/" ++ t)
    else none
  | none =>
    if fileExists "ieee_template_proper.tex" then some "ieee_template_proper.tex"
    else none

/-- The two arguments added for a resolved template (pdf_agent.py
lines 143, 148, 153): the flag token and, separately, the path. -/
def templateArgs : Option String → List String
  | some t => ["--template", t]
  | none => []

/-- The full primary pandoc invocation (pdf_agent.py lines 131-170):
executable, input, output flag and path, engine flag and engine, template
arguments when resolved, the fixed IEEE options, then the configured extra
options last. -/
def buildCmd (inputFile outputFile engine : String) (tmpl : Option String)
    (extraOptions : List String) : List String :=
  ["pandoc", inputFile, "-o", outputFile, "--pdf-engine", engine]
    ++ templateArgs tmpl ++ ieeeOptions ++ extraOptions

/-- The default output path (pdf_agent.py lines 126-128): the configured
output directory joined with the input's stem plus the `_IEEE.pdf` suffix. -/
def defaultOutputFile (outputDir stem : String) : String :=
  outputDir ++ "/" ++ stem ++ "_IEEE.pdf"

/-- The fallback command (pdf_agent.py line 182): every argument of the
primary command that starts with the string `--template` is dropped; all
other arguments, including a template path value, are kept. -/
def fallbackCmd (cmd : List String) : List String :=
  cmd.filter (fun a => !(strStarts a "--template"))

/-- Result of `convert_to_ieee_format`: the commands actually executed, in
order, and the returned string (the output path on success, `""` on
failure, pdf_agent.py lines 177, 186, 189). -/
structure ConvertResult where
  attempts : List (List String)
  output : String
deriving DecidableEq, Repr

/-- `PDFAgent.convert_to_ieee_format`, run phase (pdf_agent.py
lines 172-189), for an already-built command.  `exitCode i c` is the
subprocess oracle: the exit code of the i-th invocation of command `c`.
Primary attempt first; on non-zero exit, exactly one fallback attempt with
the `--template`-filtered command; no further retries. -/
def convert_to_ieee_format (cmd : List String) (outputFile : String)
    (exitCode : Nat → List String → Int) : ConvertResult :=
  if exitCode 0 cmd = 0 then ⟨[cmd], outputFile⟩
  else
    if exitCode 1 (fallbackCmd cmd) = 0 then ⟨[cmd, fallbackCmd cmd], outputFile⟩
    else ⟨[cmd, fallbackCmd cmd], ""⟩

/-- Result of `process_file`: its boolean return value, whether
`send_email` was invoked, the effective recipient used for the send, and
the send's outcome. -/
structure ProcessResult where
  success : Bool
  emailAttempted : Bool
  emailRecipient : Option String
  emailSent : Bool
deriving DecidableEq, Repr

/-- `PDFAgent.process_file` (pdf_agent.py lines 196-225): `pdfPath` is the
string returned by `convert_to_ieee_format` (empty on conversion failure).
If conversion failed, return False without emailing.  Otherwise, when email
is requested, a provided recipient temporarily replaces the configured
`to_email` (mutate-then-restore, lines 211-216); the email outcome is
discarded and the function returns True. -/
def process_file (pdfPath : String) (sendEmailOpt : Bool)
    (emailRecipient : Option String) (cfg : EmailConfig) (smtpOk : Bool) :
    ProcessResult :=
  if pdfPath = "" then ⟨false, false, none, false⟩
  else if sendEmailOpt then
    match emailRecipient with
    | some r => ⟨true, true, some r, send_email { cfg with to_email := r } smtpOk⟩
    | none => ⟨true, true, some cfg.to_email, send_email cfg smtpOk⟩
  else ⟨true, false, none, false⟩

/-- Python's `max(pdf_files, key=os.path.getctime) if pdf_files else None`
(app.py lines 210-211): the first element of maximal creation time, `none`
on an empty list.  `ctime` is the filesystem oracle for creation times. -/
def maxByCtime (ctime : String → Nat) : List String → Option String
  | [] => none
  | x :: xs => some (xs.foldl (fun b a => if ctime b < ctime a then a else b) x)

/-- How the body of the background job ended: `result b` when
`agent.process_file` returned `b` without raising, `exn e` when an
exception with message `e` escaped the try body of `process_conversion`. -/
inductive JobOutcome where
  | result : Bool → JobOutcome
  | exn : String → JobOutcome
deriving DecidableEq, Repr

/-- The record mutation performed by `process_conversion`
(app.py lines 207-245): on True, status `completed`, `pdf_path` set to the
newest pdf found by globbing the output directory, `completed_at` set; on
False, status `failed` with the fixed error string; on an exception, status
`failed` with the exception text.  `pdfFiles` is the glob oracle (the pdf
files in the output directory at completion time) and `now` the clock. -/
def finishRecord (r : FileRecord) (outcome : JobOutcome) (pdfFiles : List String)
    (ctime : String → Nat) (now : String) : FileRecord :=
  match outcome with
  | JobOutcome.result true =>
    { r with status := Status.completed,
             pdf_path := maxByCtime ctime pdfFiles,
             completed_at := some now }
  | JobOutcome.result false =>
    { r with status := Status.failed, error := some "Conversion failed" }
  | JobOutcome.exn e =>
    { r with status := Status.failed, error := some e }

/-- `process_conversion` (app.py lines 186-245): returns the mutated record
together with the `conversion_status` events emitted, in order — first the
`processing` event (lines 190-195), then exactly one terminal event. -/
def process_conversion (sid : String) (r : FileRecord) (outcome : JobOutcome)
    (pdfFiles : List String) (ctime : String → Nat) (now : String) :
    FileRecord × List StatusEvent :=
  let ev0 : StatusEvent :=
    ⟨sid, r.filename, Status.processing, "Starting conversion...", none⟩
  match outcome with
  | JobOutcome.result true =>
    (finishRecord r outcome pdfFiles ctime now,
     [ev0, ⟨sid, r.filename, Status.completed, "Conversion completed successfully!",
            maxByCtime ctime pdfFiles⟩])
  | JobOutcome.result false =>
    (finishRecord r outcome pdfFiles ctime now,
     [ev0, ⟨sid, r.filename, Status.failed,
            "Conversion failed. Check logs for details.", none⟩])
  | JobOutcome.exn e =>
    (finishRecord r outcome pdfFiles ctime now,
     [ev0, ⟨sid, r.filename, Status.failed, "Conversion error: " ++ e, none⟩])

/-- A session (app.py lines 84-90), restricted to the fields the pipeline
reads and writes. -/
structure Session where
  id : String
  files : List FileRecord
  dismissed_updates : List String
deriving DecidableEq, Repr

/-- The freshly created session of `get_session` (app.py lines 84-90). -/
def emptySession (sid : String) : Session := ⟨sid, [], []⟩

/-- The process-wide `sessions` dict, as an association list. -/
abbrev Sessions := List (String × Session)

/-- `get_session` (app.py lines 81-91): return the existing session, or
create an empty one under the given id (lazy creation); returns the session
together with the possibly extended store. -/
def get_session (sessions : Sessions) (sid : String) : Session × Sessions :=
  match List.find? (fun p => p.1 == sid) sessions with
  | some p => (p.2, sessions)
  | none => (emptySession sid, sessions ++ [(sid, emptySession sid)])

/-- The first-match file lookup of `convert_file` (app.py lines 157-160). -/
def findFile (files : List FileRecord) (filename : String) : Option FileRecord :=
  List.find? (fun f => f.filename == filename) files

/-- The in-place `file_info['status'] = 'processing'` of `convert_file`
(app.py line 166), applied to the first record with the given filename. -/
def markFirstProcessing : List FileRecord → String → List FileRecord
  | [], _ => []
  | f :: fs, n =>
    if f.filename == n then { f with status := Status.processing } :: fs
    else f :: markFirstProcessing fs n

/-- Replace the session stored under `sid`. -/
def setSession (sessions : Sessions) (sid : String) (s : Session) : Sessions :=
  List.map (fun p => if p.1 == sid then (p.1, s) else p) sessions

/-- The synchronous responses of the convert endpoint. -/
inductive HttpResp where
  | badRequest
  | notFound
  | accepted
deriving DecidableEq, Repr

/-- What the convert endpoint did: the HTTP response, the session store
after the call, whether a background job thread was started, and the record
(already marked processing) handed to that job.  StatusEvents are published
only from inside started jobs, so `jobStarted = false` means the request
never leads to any published event. -/
structure ConvertResponse where
  resp : HttpResp
  sessions : Sessions
  jobStarted : Bool
  jobFile : Option FileRecord
deriving Repr

/-- `convert_file` (app.py lines 141-184): missing identifiers give a 400;
the session is fetched or lazily created; a filename with no match in the
session's files gives a 404 with no job started; otherwise the first
matching record is set to `processing` and a background job is started. -/
def convert_file (sessions : Sessions) (sid filename : String) : ConvertResponse :=
  if sid == "" || filename == "" then ⟨HttpResp.badRequest, sessions, false, none⟩
  else
    let gs := get_session sessions sid
    match findFile gs.1.files filename with
    | none => ⟨HttpResp.notFound, gs.2, false, none⟩
    | some f =>
      let s2 : Session := { gs.1 with files := markFirstProcessing gs.1.files filename }
      ⟨HttpResp.accepted, setSession gs.2 sid s2, true,
       some { f with status := Status.processing }⟩

/-- The conversion options dictionary (app.py lines 148, 198-199):
`send_email` defaults to True when the key is absent, `email_recipient`
to None. -/
structure ConversionOptions where
  send_email : Option Bool
  email_recipient : Option String
deriving DecidableEq, Repr

/-- `options.get('send_email', True)` (app.py line 198). -/
def optSendEmail (o : ConversionOptions) : Bool := o.send_email.getD true

/-- `os.path.join('output', filename)` (app.py line 251): an absolute
second component discards the first; otherwise the components are joined
with a separator. -/
def pyJoin (base name : String) : String :=
  if strStarts name "/" then name else base ++ "/" ++ name

/-- `download_file` (app.py lines 247-258): join the literal directory
`output` with the request's filename; serve that path as an attachment if
it exists, else answer 404 (`none`). -/
def download_file (fileExists : String → Bool) (filename : String) : Option String :=
  if fileExists (pyJoin "output" filename) then some (pyJoin "output" filename)
  else none

/-- Path components after resolving `.` and `..` segments. -/
def normalizePath (p : String) : List String :=
  List.foldl (fun acc c => if c = ".." then acc.dropLast else acc ++ [c]) []
    ((splitSlash p).filter (fun c => c != "" && c != "."))

/-- Whether a relative path stays inside the `output` directory: after
resolving dot segments it still begins with the `output` component. -/
def withinOutput (p : String) : Bool :=
  !(strStarts p "/") &&
    (match normalizePath p with
     | c :: _ :: _ => c == "output"
     | _ => false)

/-- `dismiss_update`'s mutation of a session's dismissed list
(app.py lines 283-284): append the id only when it is not yet present. -/
def dismiss_update (dismissed : List String) (updateId : String) : List String :=
  if updateId ∈ dismissed then dismissed else dismissed ++ [updateId]

/-- One state-changing step applied to a FileRecord after its upload:
`startConvert` is the unconditional `processing` assignment of
`convert_file` (app.py line 166); `finishJob` is the terminal mutation of
the background job (app.py lines 207-245), parametrised by the job's
outcome and the glob oracle's answer at completion time. -/
inductive JobStep where
  | startConvert
  | finishJob : JobOutcome → List String → JobStep
deriving Repr

/-- Apply one step to a record. -/
def applyStep (ctime : String → Nat) (now : String) (r : FileRecord) :
    JobStep → FileRecord
  | JobStep.startConvert => { r with status := Status.processing }
  | JobStep.finishJob o pdfs => finishRecord r o pdfs ctime now

/-- Run a sequence of steps on a record. -/
def runSteps (ctime : String → Nat) (now : String) :
    FileRecord → List JobStep → FileRecord
  | r, [] => r
  | r, s :: rest => runSteps ctime now (applyStep ctime now r s) rest

/-- The sequence of status values a record takes on along a step sequence,
starting from its current status. -/
def statusHistory (ctime : String → Nat) (now : String) :
    FileRecord → List JobStep → List Status
  | r, [] => [r.status]
  | r, s :: rest => r.status :: statusHistory ctime now (applyStep ctime now r s) rest

/-- The status sequences the lifecycle claim allows: the nonempty prefixes
of `uploaded, processing, completed` and of `uploaded, processing, failed`. -/
def allowedHistories : List (List Status) :=
  [[Status.uploaded],
   [Status.uploaded, Status.processing],
   [Status.uploaded, Status.processing, Status.completed],
   [Status.uploaded, Status.processing, Status.failed]]

/-- Claim C1, counterexample.  With the default configuration's template
(present on disk) and default extra options, when the primary invocation
exits non-zero the fallback command issued by the code is NOT the primary
invocation minus the template flag: filtering the arguments that start with
`--template` removes the flag token but keeps the template path
`ieee_template_proper.tex` as a stray positional argument, so the fallback
command differs from the invocation built without a template. -/
theorem C1_counterexample :
    let cmd := buildCmd "draft.md" "output/draft_IEEE.pdf" "xelatex"
      (some "ieee_template_proper.tex") defaultPandocOptions
    let res := convert_to_ieee_format cmd "output/draft_IEEE.pdf"
      (fun i _ => if i = 0 then (1 : Int) else 0)
    res.attempts = [cmd, fallbackCmd cmd]
    ∧ fallbackCmd cmd
        ≠ buildCmd "draft.md" "output/draft_IEEE.pdf" "xelatex" none defaultPandocOptions
    ∧ "ieee_template_proper.tex" ∈ fallbackCmd cmd
    ∧ res.output = "output/draft_IEEE.pdf" := by decide

/-- Claim C1, amended: when the primary invocation exits non-zero,
`convert_to_ieee_format` issues exactly one fallback invocation whose
command is the primary command with every argument that starts with
`--template` removed (the template path value, when present, stays in the
command), makes no further retries, returns the computed output path when
the fallback exits zero, and returns failure (the empty path) when the
fallback also exits non-zero. -/
theorem C1_fallback_amended (cmd : List String) (outputFile : String)
    (exitCode : Nat → List String → Int) (h0 : exitCode 0 cmd ≠ 0) :
    (convert_to_ieee_format cmd outputFile exitCode).attempts
      = [cmd, cmd.filter (fun a => !(strStarts a "--template"))]
    ∧ (exitCode 1 (fallbackCmd cmd) = 0 →
        (convert_to_ieee_format cmd outputFile exitCode).output = outputFile)
    ∧ (exitCode 1 (fallbackCmd cmd) ≠ 0 →
        (convert_to_ieee_format cmd outputFile exitCode).output = "") := by
  have hfb : cmd.filter (fun a => !(strStarts a "--template")) = fallbackCmd cmd := rfl
  rw [hfb]
  by_cases h1 : exitCode 1 (fallbackCmd cmd) = 0 <;>
    simp [convert_to_ieee_format, h0, h1]

/-- Witness for C1_fallback_amended at a concrete command and exit-code
oracle (primary fails, fallback succeeds). -/
theorem C1_fallback_amended_witness :
    (convert_to_ieee_format
        ["pandoc", "draft.md", "-o", "out.pdf", "--pdf-engine", "xelatex",
         "--template", "t.tex"]
        "out.pdf" (fun i _ => if i = 0 then (1 : Int) else 0)).attempts
      = [["pandoc", "draft.md", "-o", "out.pdf", "--pdf-engine", "xelatex",
          "--template", "t.tex"],
         ["pandoc", "draft.md", "-o", "out.pdf", "--pdf-engine", "xelatex", "t.tex"]]
    ∧ (convert_to_ieee_format
        ["pandoc", "draft.md", "-o", "out.pdf", "--pdf-engine", "xelatex",
         "--template", "t.tex"]
        "out.pdf" (fun i _ => if i = 0 then (1 : Int) else 0)).output = "out.pdf" := by
  have h := C1_fallback_amended
    ["pandoc", "draft.md", "-o", "out.pdf", "--pdf-engine", "xelatex",
     "--template", "t.tex"]
    "out.pdf" (fun i _ => if i = 0 then (1 : Int) else 0) (by decide)
  exact ⟨h.1.trans (by decide), h.2.1 (by decide)⟩

/-- Claim C2, counterexample.  A successful background conversion does not
set `pdf_path` to the conversion's computed output path: the code globs the
output directory and takes the pdf with the newest creation time, so when a
more recently created pdf (here `output/other.pdf`) sits next to the
computed `output/draft_IEEE.pdf`, `pdf_path` and the completed event point
at the other file. -/
theorem C2_counterexample :
    let res := process_conversion "s1"
      { mkUploaded "draft.md" "draft.md" "uploads/draft.md" "t0" with
        status := Status.processing }
      (JobOutcome.result true)
      ["output/draft_IEEE.pdf", "output/other.pdf"]
      (fun p => if p == "output/other.pdf" then 2 else 1) "t1"
    res.1.status = Status.completed
    ∧ res.1.pdf_path = some "output/other.pdf"
    ∧ res.1.pdf_path ≠ some (defaultOutputFile "output" "draft") := by decide

/-- Claim C2, amended: whenever the background conversion succeeds the job
sets status `completed`, sets `completed_at`, sets `pdf_path` to the most
recently created pdf found in the configured output directory at completion
time (None when the directory holds no pdfs) — not necessarily the
conversion's computed output path — and publishes a `completed` StatusEvent
carrying that same `pdf_path` after the initial `processing` event. -/
theorem C2_success_amended (sid : String) (r : FileRecord) (pdfFiles : List String)
    (ctime : String → Nat) (now : String) :
    let res := process_conversion sid r (JobOutcome.result true) pdfFiles ctime now
    res.1.status = Status.completed
    ∧ res.1.pdf_path = maxByCtime ctime pdfFiles
    ∧ res.1.completed_at = some now
    ∧ res.2 = [⟨sid, r.filename, Status.processing, "Starting conversion...", none⟩,
               ⟨sid, r.filename, Status.completed,
                "Conversion completed successfully!", maxByCtime ctime pdfFiles⟩] := by
  simp [process_conversion, finishRecord]

/-- Claim C3: an exception escaping the body of the background job is
caught at the job boundary: the record's status becomes `failed` (never
left `processing`), its error field holds the exception text, and a
`failed` StatusEvent is published as the job's final event. -/
theorem C3_exception_boundary (sid : String) (r : FileRecord) (e : String)
    (pdfFiles : List String) (ctime : String → Nat) (now : String) :
    let res := process_conversion sid r (JobOutcome.exn e) pdfFiles ctime now
    res.1.status = Status.failed
    ∧ res.1.error = some e
    ∧ res.2 = [⟨sid, r.filename, Status.processing, "Starting conversion...", none⟩,
               ⟨sid, r.filename, Status.failed, "Conversion error: " ++ e, none⟩]
    ∧ res.1.status ≠ Status.processing := by
  simp [process_conversion, finishRecord]

/-- Claim C4, counterexample.  A record's status sequence can leave a
terminal state: after a successful conversion, a second convert request for
the same filename makes `convert_file` set the record to `processing`
again (app.py line 166 runs unconditionally on any found record), so the
observed sequence `uploaded, processing, completed, processing` is not
among the allowed prefixes of `uploaded, processing, {completed|failed}`. -/
theorem C4_counterexample :
    statusHistory (fun _ => 0) "t1"
      (mkUploaded "draft.md" "draft.md" "uploads/draft.md" "t0")
      [JobStep.startConvert,
       JobStep.finishJob (JobOutcome.result true) ["output/draft_IEEE.pdf"],
       JobStep.startConvert]
      = [Status.uploaded, Status.processing, Status.completed, Status.processing]
    ∧ [Status.uploaded, Status.processing, Status.completed, Status.processing]
        ∉ allowedHistories := by decide

/-- Claim C4, amended: for a FileRecord whose convert operation is invoked
exactly once (one `processing` assignment followed by its job's terminal
mutation), the status sequence is exactly `uploaded, processing`, then one
terminal state — `completed` when the job's outcome is a successful result
and `failed` otherwise — and in particular lies among the allowed
lifecycle prefixes; the convert endpoint, however, re-marks any found
record `processing` regardless of its current state, so a second convert
request moves a record out of a terminal state. -/
theorem C4_lifecycle_amended (o : JobOutcome) (pdfs : List String)
    (ctime : String → Nat) (now fn orig fp up : String) :
    statusHistory ctime now (mkUploaded fn orig fp up)
      [JobStep.startConvert, JobStep.finishJob o pdfs]
      = [Status.uploaded, Status.processing,
         if o = JobOutcome.result true then Status.completed else Status.failed]
    ∧ statusHistory ctime now (mkUploaded fn orig fp up)
        [JobStep.startConvert, JobStep.finishJob o pdfs] ∈ allowedHistories := by
  cases o with
  | result b =>
    cases b <;>
      simp [statusHistory, applyStep, finishRecord, mkUploaded, allowedHistories]
  | exn e =>
    simp [statusHistory, applyStep, finishRecord, mkUploaded, allowedHistories]

/-- Claim C5, counterexample.  After a terminal transition, `pdf_path` set
is not equivalent to status `completed`: a first conversion succeeds and
sets `pdf_path`, a second convert request on the same record fails, and the
failed branch never clears `pdf_path`, leaving a failed record with a
non-null `pdf_path`. -/
theorem C5_counterexample :
    let r := runSteps (fun _ => 0) "t1"
      (mkUploaded "draft.md" "draft.md" "uploads/draft.md" "t0")
      [JobStep.startConvert,
       JobStep.finishJob (JobOutcome.result true) ["output/draft_IEEE.pdf"],
       JobStep.startConvert,
       JobStep.finishJob (JobOutcome.result false) ["output/draft_IEEE.pdf"]]
    r.status = Status.failed
    ∧ r.pdf_path = some "output/draft_IEEE.pdf"
    ∧ ¬(r.pdf_path.isSome = true ↔ r.status = Status.completed) := by decide

/-- Claim C5, amended: after the terminal transition of a record's only
conversion job, a failed record has `pdf_path` unset and a completed record
has `pdf_path` equal to the newest pdf of the output directory glob (unset
exactly when that glob is empty); the biconditional of the original claim
fails only for records converted more than once, where a failed second job
leaves the first job's `pdf_path` in place. -/
theorem C5_pdf_path_amended (o : JobOutcome) (pdfs : List String)
    (ctime : String → Nat) (now fn orig fp up : String) :
    (runSteps ctime now (mkUploaded fn orig fp up)
        [JobStep.startConvert, JobStep.finishJob o pdfs]).status
      = (if o = JobOutcome.result true then Status.completed else Status.failed)
    ∧ (runSteps ctime now (mkUploaded fn orig fp up)
        [JobStep.startConvert, JobStep.finishJob o pdfs]).pdf_path
      = (if o = JobOutcome.result true then maxByCtime ctime pdfs else none) := by
  cases o with
  | result b =>
    cases b <;>
      simp [runSteps, applyStep, finishRecord, mkUploaded]
  | exn e =>
    simp [runSteps, applyStep, finishRecord, mkUploaded]

/-- Claim C6: when the conversion produced an artifact (non-empty pdf
path) and email sending is requested, `process_file` returns success for
every email configuration, recipient override and SMTP outcome — an email
failure or incomplete configuration is skipped — and the job's terminal
status computed from that result is `completed`, never downgraded. -/
theorem C6_email_never_downgrades (pdfPath : String) (recipient : Option String)
    (cfg : EmailConfig) (smtpOk : Bool) (sid : String) (r : FileRecord)
    (pdfs : List String) (ctime : String → Nat) (now : String)
    (h : pdfPath ≠ "") :
    (process_file pdfPath true recipient cfg smtpOk).success = true
    ∧ (process_conversion sid r
        (JobOutcome.result (process_file pdfPath true recipient cfg smtpOk).success)
        pdfs ctime now).1.status = Status.completed := by
  have hs : (process_file pdfPath true recipient cfg smtpOk).success = true := by
    cases recipient <;> simp [process_file, h]
  refine ⟨hs, ?_⟩
  rw [hs]
  simp [process_conversion, finishRecord]

/-- Witness for C6_email_never_downgrades: a concrete conversion artifact
with a completely empty email configuration (the send is skipped) and a
failing SMTP oracle still yields a successful `process_file`. -/
theorem C6_email_never_downgrades_witness :
    (process_file "output/draft_IEEE.pdf" true none
      ⟨"smtp.gmail.com", 587, "", "", "", ""⟩ false).success = true := by
  exact (C6_email_never_downgrades "output/draft_IEEE.pdf" none
    ⟨"smtp.gmail.com", 587, "", "", "", ""⟩ false "s1"
    (mkUploaded "draft.md" "draft.md" "uploads/draft.md" "t0")
    [] (fun _ => 0) "t1" (by decide)).1

/-- Claim C7: a convert request with present identifiers whose filename
matches no record in the (possibly freshly created, empty) session gets an
immediate 404 response, starts no background job (so no StatusEvent is
ever published for the request, since events are emitted only from within
started jobs), and changes no FileRecord of any session — the store is
either unchanged or merely extended with the fresh empty session. -/
theorem C7_not_found_no_job (sessions : Sessions) (sid filename : String)
    (h1 : sid ≠ "") (h2 : filename ≠ "")
    (h : findFile (get_session sessions sid).1.files filename = none) :
    (convert_file sessions sid filename).resp = HttpResp.notFound
    ∧ (convert_file sessions sid filename).jobStarted = false
    ∧ (convert_file sessions sid filename).jobFile = none
    ∧ ((convert_file sessions sid filename).sessions = sessions
        ∨ (convert_file sessions sid filename).sessions
            = sessions ++ [(sid, emptySession sid)]) := by
  have hb : (sid == "" || filename == "") = false := by
    simp [h1, h2]
  cases hf : List.find? (fun p => p.1 == sid) sessions with
  | some p =>
    have hg : get_session sessions sid = (p.2, sessions) := by
      simp [get_session, hf]
    rw [hg] at h
    refine ⟨?_, ?_, ?_, Or.inl ?_⟩ <;> simp [convert_file, hb, hg, h]
  | none =>
    have hg : get_session sessions sid
        = (emptySession sid, sessions ++ [(sid, emptySession sid)]) := by
      simp [get_session, hf]
    rw [hg] at h
    refine ⟨?_, ?_, ?_, Or.inr ?_⟩ <;> simp [convert_file, hb, hg, h]

/-- Witness for C7_not_found_no_job: a fresh (empty) session store and an
unknown session id with a filename that the freshly created session cannot
contain. -/
theorem C7_not_found_no_job_witness :
    (convert_file [] "s1" "draft.md").resp = HttpResp.notFound
    ∧ (convert_file [] "s1" "draft.md").jobStarted = false := by
  have h := C7_not_found_no_job [] "s1" "draft.md" (by decide) (by decide) (by decide)
  exact ⟨h.1, h.2.1⟩

/-- Claim C8: when the options dictionary lacks the `send_email` key, the
effective flag defaults to true, and the background job therefore invokes
the email dispatcher after a successful conversion (non-empty artifact
path). -/
theorem C8_send_email_default (o : ConversionOptions) (pdfPath : String)
    (cfg : EmailConfig) (smtpOk : Bool)
    (ho : o.send_email = none) (hp : pdfPath ≠ "") :
    optSendEmail o = true
    ∧ (process_file pdfPath (optSendEmail o) o.email_recipient cfg smtpOk).emailAttempted
        = true := by
  have h1 : optSendEmail o = true := by simp [optSendEmail, ho]
  refine ⟨h1, ?_⟩
  rw [h1]
  cases o.email_recipient <;> simp [process_file, hp]

/-- Witness for C8_send_email_default: an options dictionary with neither
key set leads to an attempted email dispatch after a successful
conversion. -/
theorem C8_send_email_default_witness :
    optSendEmail ⟨none, none⟩ = true
    ∧ (process_file "output/draft_IEEE.pdf" (optSendEmail ⟨none, none⟩) none
        ⟨"smtp.gmail.com", 587, "u", "p", "f", "t"⟩ true).emailAttempted = true := by
  exact C8_send_email_default ⟨none, none⟩ "output/draft_IEEE.pdf"
    ⟨"smtp.gmail.com", 587, "u", "p", "f", "t"⟩ true rfl (by decide)

/-- Claim C9: the download endpoint serves whatever exists at the unsanitized
join of the literal directory `output` with the request's filename.  A
filename containing a parent-directory segment, here `../pdf_agent.log`
(the agent's log file, which the logger creates in the working directory),
is served even though the resolved path lies outside the output directory,
while an ordinary filename stays inside it. -/
theorem C9_path_traversal :
    download_file (fun p => p == "output/../pdf_agent.log") "../pdf_agent.log"
      = some "output/../pdf_agent.log"
    ∧ withinOutput "output/../pdf_agent.log" = false
    ∧ withinOutput (pyJoin "output" "draft_IEEE.pdf") = true := by decide

/-- If the id is already dismissed, dismissing it again changes nothing. -/
theorem dismiss_update_mem {l : List String} {u : String} (h : u ∈ l) :
    dismiss_update l u = l := by
  simp [dismiss_update, h]

/-- Iterating `dismiss_update` on a list that already holds the id is the
identity. -/
theorem iterate_dismiss_fixed (u : String) (k : Nat) (d : List String)
    (h : u ∈ d) : (fun d => dismiss_update d u)^[k] d = d := by
  induction k with
  | zero => rfl
  | succ m ih =>
    rw [Function.iterate_succ_apply, dismiss_update_mem h]
    exact ih

/-- Claim C10: dismissing the same update id any positive number of times
on a session whose dismissed list does not yet hold it leaves exactly one
entry for that id — `dismiss_update` is an idempotent insertion. -/
theorem C10_dismiss_idempotent (l : List String) (u : String) (n : Nat)
    (hu : u ∉ l) (hn : 1 ≤ n) :
    (((fun d => dismiss_update d u)^[n]) l).count u = 1 := by
  obtain ⟨m, rfl⟩ : ∃ m, n = m + 1 := ⟨n - 1, by omega⟩
  rw [Function.iterate_succ_apply]
  have h1 : dismiss_update l u = l ++ [u] := by
    simp [dismiss_update, hu]
  rw [h1, iterate_dismiss_fixed u m (l ++ [u]) (by simp)]
  simp [List.count_append, List.count_eq_zero.mpr hu]

/-- Witness for C10_dismiss_idempotent: dismissing `v1.1.0` twice on a
fresh session leaves exactly one entry. -/
theorem C10_dismiss_idempotent_witness :
    (((fun d => dismiss_update d "v1.1.0")^[2]) []).count "v1.1.0" = 1 := by
  exact C10_dismiss_idempotent [] "v1.1.0" 2 (by decide) (by decide)

end PdfAgent
